import Mathlib

/-!
Verification of the mobx-keystone core against its design specification.

This file gives a shallow embedding of three parts of the source:

* `packages/lib/src/modelShared/prop.ts` — the model-property builder
  (`prop`, `withSetter`, `withTransform`, `withSnapshotProcessor`,
  `getModelPropDefaultValue`);
* `packages/lib/src/snapshot/reconcileSnapshot.ts` — `reconcileSnapshot`
  and `detachIfNeeded`;
* `packages/lib/src/types/TypeChecker.ts` — the `TypeChecker` class with its
  per-(checker, node) result cache, the weak listener registries and the
  snapshot-processor caches.

JavaScript reference identity for heap objects is modelled with explicit
numeric object identities; `WeakMap`s become association lists keyed by those
identities; `Set<TypeChecker>` becomes an insertion-ordered duplicate-free
list of checker identities; thrown failures become `Except.error`; mutable
module state is threaded explicitly.  Where a definition additionally
returns a `Nat`, that number counts how many times the underlying
user-supplied function (validator or snapshot processor) was invoked by the
call; it instruments the exact program points where the source calls
`this._check` / `this._toSnapshotProcessor` / `this._fromSnapshotProcessor`.
-/

/-! ## JavaScript primitive values -/

/-- JavaScript primitive values (`isPrimitive` in `utils` also counts `null`
and `undefined` as primitives). -/
inductive JSPrim where
  | num (n : Int)
  | str (s : String)
  | bool (b : Bool)
  | null
  | undef
deriving DecidableEq, Repr

/-! ## Model properties (`modelShared/prop.ts`) -/

/-- The runtime value of the `setter` field of a model prop:
`false`, `true` or `"assign"`. -/
inductive SetterMode where
  | off
  | on
  | assign
deriving DecidableEq, Repr

/-- The runtime `_internal` record of a model property (`ModelProp._internal`).
`α` is the type of property values, `σ` the type of snapshots.  The
`noDefaultValue` sentinel is modelled by `Option.none` in `defaultFn` /
`defaultValue`; `typeChecker` and `transform` store the identity of the
attached object (their inner behaviour is not needed by any property proved
here); absent snapshot processors are `none`. -/
structure PropInternal (α σ : Type) where
  defaultFn : Option (Unit → α)
  defaultValue : Option α
  typeChecker : Option Nat
  setter : SetterMode
  isId : Bool
  transform : Option Nat
  fromSnapshotProcessor : Option (σ → σ)
  toSnapshotProcessor : Option (σ → σ)

/-- The argument given to `prop(def?)`: a default-value generator function, a
plain default value, or (`none` at the call site) no argument at all. -/
inductive PropDefArg (α : Type) where
  | fnArg (f : Unit → α)
  | valArg (v : α)

/-- The `_internal` record built by `prop(def?)`: `hasDefaultValue` is true
iff an argument was passed, `isDefFn` iff that argument is a function, and
`defaultFn` / `defaultValue` receive the argument accordingly (the other one
keeps the `noDefaultValue` sentinel). -/
def propRecord {α σ : Type} (arg : Option (PropDefArg α)) : PropInternal α σ :=
  { defaultFn := match arg with
      | some (.fnArg f) => some f
      | _ => none
    defaultValue := match arg with
      | some (.valArg v) => some v
      | _ => none
    typeChecker := none
    setter := .off
    isId := false
    transform := none
    fromSnapshotProcessor := none
    toSnapshotProcessor := none }

/-- A heap of model-prop objects; a model prop is referenced by its index,
which plays the role of JavaScript object identity.  An object spread
(`{ ...this, _internal: { ... } }`) allocates a fresh object, i.e. appends a
new record. -/
abbrev PropHeap (α σ : Type) := List (PropInternal α σ)

/-- Allocate a fresh model-prop object on the heap, returning the new heap
and the identity of the fresh object. -/
def allocProp {α σ : Type} (heap : PropHeap α σ) (r : PropInternal α σ) :
    PropHeap α σ × Nat :=
  (heap ++ [r], heap.length)

/-- `prop(def?)` (named `propNew` here, the source name is taken in Lean)
allocates a fresh model prop whose `_internal` record is `propRecord arg`. -/
def propNew {α σ : Type} (heap : PropHeap α σ) (arg : Option (PropDefArg α)) :
    PropHeap α σ × Nat :=
  allocProp heap (propRecord arg)

/-- `withSetter(mode?)` returns `{ ...this, _internal: { ...this._internal,
setter: mode ?? true } }`: a fresh object whose `setter` field is the given
mode, defaulting to `true`. -/
def withSetter {α σ : Type} (heap : PropHeap α σ) (self : Nat)
    (mode : Option SetterMode) : PropHeap α σ × Nat :=
  match heap[self]? with
  | some int => allocProp heap { int with setter := mode.getD SetterMode.on }
  | none => (heap, self)

/-- `withTransform(transform)` returns a fresh object whose `transform`
field holds the (full) transform built from the given transform object;
the transform is recorded by its identity — no claim proved here depends on
the behaviour of the `toFullTransform` wrapper. -/
def withTransform {α σ : Type} (heap : PropHeap α σ) (self : Nat)
    (transform : Nat) : PropHeap α σ × Nat :=
  match heap[self]? with
  | some int => allocProp heap { int with transform := some transform }
  | none => (heap, self)

/-- The combination of snapshot processors computed by
`withSnapshotProcessor({ fromSnapshot, toSnapshot })` on the `_internal`
record: when an old and a new `fromSnapshot` both exist the combined one is
`sn => oldFn(newFn(sn))`; when an old and a new `toSnapshot` both exist the
combined one is `sn => newFn(oldFn(sn))`; otherwise whichever of the two is
present (if any) is kept. -/
def withSnapshotProcessorRecord {α σ : Type} (self : PropInternal α σ)
    (fromSnapshot toSnapshot : Option (σ → σ)) : PropInternal α σ :=
  let newFromSnapshot : Option (σ → σ) :=
    match self.fromSnapshotProcessor, fromSnapshot with
    | some oldFn, some newFn => some (fun sn => oldFn (newFn sn))
    | none, some newFn => some newFn
    | _, none => self.fromSnapshotProcessor
  let newToSnapshot : Option (σ → σ) :=
    match self.toSnapshotProcessor, toSnapshot with
    | some oldFn, some newFn => some (fun sn => newFn (oldFn sn))
    | none, some newFn => some newFn
    | _, none => self.toSnapshotProcessor
  { self with
    fromSnapshotProcessor := newFromSnapshot
    toSnapshotProcessor := newToSnapshot }

/-- `withSnapshotProcessor` returns a fresh object carrying the combined
processors. -/
def withSnapshotProcessor {α σ : Type} (heap : PropHeap α σ) (self : Nat)
    (fromSnapshot toSnapshot : Option (σ → σ)) : PropHeap α σ × Nat :=
  match heap[self]? with
  | some int => allocProp heap (withSnapshotProcessorRecord int fromSnapshot toSnapshot)
  | none => (heap, self)

/-- Run the stored `fromSnapshotProcessor` pipeline of a model prop on a
snapshot (identity when none is stored). -/
def applyFromSnapshotProcessor {α σ : Type} (self : PropInternal α σ) (sn : σ) : σ :=
  match self.fromSnapshotProcessor with
  | some f => f sn
  | none => sn

/-- Run the stored `toSnapshotProcessor` pipeline of a model prop on a
snapshot (identity when none is stored). -/
def applyToSnapshotProcessor {α σ : Type} (self : PropInternal α σ) (sn : σ) : σ :=
  match self.toSnapshotProcessor with
  | some f => f sn
  | none => sn

/-- `getModelPropDefaultValue`: the default function, when set, takes
precedence; otherwise the plain default value, when set; otherwise the
`noDefaultValue` sentinel (modelled as `none`). -/
def getModelPropDefaultValue {α σ : Type} (propData : PropInternal α σ) :
    Option α :=
  match propData.defaultFn with
  | some f => some (f ())
  | none =>
    match propData.defaultValue with
    | some v => some v
    | none => none

/-! ## Reconciliation (`snapshot/reconcileSnapshot.ts`) -/

/-- The kind of a non-primitive JavaScript value as far as the reconciler's
type predicates are concerned: plain object, array, `Map`, `Set`, or a
model node (which carries its `$modelType` / `$modelId` metadata). -/
inductive RKind where
  | plainObj
  | arrObj
  | mapObj
  | setObj
  | modelObj (modelType : String) (modelId : String)
deriving DecidableEq, Repr

/-- A JavaScript value as seen by `reconcileSnapshot` / `detachIfNeeded`:
a primitive, or a heap object with a numeric identity (reference equality is
equality of `RValue`s) and a kind. -/
inductive RValue where
  | prim (p : JSPrim)
  | ref (id : Nat) (k : RKind)
deriving DecidableEq, Repr

/-- `isPrimitive` from `utils` (`null` and `undefined` count as primitives). -/
def isPrimitive : RValue → Bool
  | .prim _ => true
  | .ref _ _ => false

/-- `isMap` from `utils`. -/
def isMap : RValue → Bool
  | .ref _ .mapObj => true
  | _ => false

/-- `isSet` from `utils`. -/
def isSet : RValue → Bool
  | .ref _ .setObj => true
  | _ => false

/-- `isModel` from `model/utils`. -/
def isModel : RValue → Bool
  | .ref _ (.modelObj _ _) => true
  | _ => false

/-- `ModelPool.findModelByTypeAndId`, as a lookup from the `$modelType` and
`$modelId` of a model to the pooled live node, if any. -/
abbrev ModelPool := String → String → Option RValue

/-- A registered reconciler: returns `undefined` (`none`) when it does not
claim the (value, snapshot) pair, and the reconciled value otherwise. -/
abbrev Reconciler := RValue → RValue → ModelPool → RValue → Option RValue

/-- The loop over the (priority-sorted) reconciler registry in
`reconcileSnapshot`: the first result that is not `undefined` wins. -/
def runReconcilers (rs : List Reconciler) (value sn : RValue) (modelPool : ModelPool)
    (parent : RValue) : Option RValue :=
  match rs with
  | [] => none
  | r :: rest =>
    match r value sn modelPool parent with
    | some ret => some ret
    | none => runReconcilers rest value sn modelPool parent

/-- Rendering of a value used by the interpolated failure message
`unsupported snapshot - ...`. -/
def rvalueStr : RValue → String
  | .prim (.num n) => toString n
  | .prim (.str s) => s
  | .prim (.bool b) => toString b
  | .prim .null => "null"
  | .prim .undef => "undefined"
  | .ref id _ => "object " ++ toString id

/-- `reconcileSnapshot(value, sn, modelPool, parent)`.  `getSnapshot` (whose
module is an external collaborator here) is passed explicitly, and
`reconcilers` is the reconciler registry as it stands after
`registerDefaultReconcilers()`, sorted by priority.  A thrown `failure`
becomes `Except.error` with the failure message. -/
def reconcileSnapshot (getSnapshot : RValue → RValue) (reconcilers : List Reconciler)
    (value sn : RValue) (modelPool : ModelPool) (parent : RValue) :
    Except String RValue :=
  if isPrimitive sn then
    .ok sn
  else if getSnapshot value = sn then
    -- the snapshot passed is exactly the same as the current one,
    -- so it is already reconciled
    .ok value
  else
    match runReconcilers reconcilers value sn modelPool parent with
    | some ret => .ok ret
    | none =>
      if isMap sn then .error "a snapshot must not contain maps"
      else if isSet sn then .error "a snapshot must not contain sets"
      else .error ("unsupported snapshot - " ++ rvalueStr sn)

/-- The parent location of a node, as returned by
`fastGetParentPathIncludingDataObjects`: the identity of the parent object
and the path (property key) of the node inside it. -/
structure ParentPath where
  parentId : Nat
  path : String
deriving DecidableEq, Repr

/-- `detachIfNeeded(newValue, oldValue, modelPool)`, reified as the mutation
it performs: `none` when nothing is done, and `some pp` when it runs
`set(pp.parent, pp.path, null)` for the old parent location `pp` of
`newValue`.  `findParentPath` stands for
`fastGetParentPathIncludingDataObjects` (external to this module). -/
def detachIfNeeded (findParentPath : RValue → Option ParentPath)
    (modelPool : ModelPool) (newValue oldValue : RValue) : Option ParentPath :=
  if newValue = oldValue then
    -- already where it should be
    none
  else
    match newValue with
    | .ref _ (.modelObj mt mi) =>
      match modelPool mt mi with
      | some _ =>
        match findParentPath newValue with
        | some parentPath => some parentPath
        | none => none
      | none => none
    | _ => none

/-- The mutable slots of parent objects: object identity and property key to
current value (`none` when the slot is absent). -/
abbrev Store := Nat → String → Option RValue

/-- `set(parent, path, v)` on the store. -/
def setStoreKey (store : Store) (objId : Nat) (key : String) (v : RValue) : Store :=
  fun o k => if o = objId ∧ k = key then some v else store o k

/-- Running `detachIfNeeded` against a store: the old parent location, when
one is detached, is set to `null`. -/
def runDetachIfNeeded (findParentPath : RValue → Option ParentPath)
    (modelPool : ModelPool) (store : Store) (newValue oldValue : RValue) : Store :=
  match detachIfNeeded findParentPath modelPool newValue oldValue with
  | some parentPath => setStoreKey store parentPath.parentId parentPath.path (.prim .null)
  | none => store

/-! ## Type checking (`types/TypeChecker.ts`) -/

/-- The identity of a JavaScript heap object used as a `WeakMap` key. -/
abbrev Obj := Nat

/-- A path inside a tree, as used by type-check errors (`Path` in
`parent/pathTypes`); path elements are modelled by naturals. -/
abbrev TCPath := List Nat

/-- A JavaScript value as seen by `TypeChecker`: a primitive or a heap
object. -/
inductive JSVal where
  | prim (p : JSPrim)
  | obj (o : Obj)
deriving DecidableEq, Repr

/-- `TypeCheckError`: the data carried by a failed check. -/
structure TypeCheckError where
  path : TCPath
  expectedTypeName : String
  actualValue : JSVal
deriving DecidableEq, Repr

/-- A cached check result: `null` (pass) or an error. -/
abbrev CheckResult := Option TypeCheckError

/-- `CheckFunction`: the underlying validator of a checked type. -/
abbrev CheckFunction := JSVal → TCPath → CheckResult

/-- `emptyPath`. -/
def emptyPath : TCPath := []

/-- Lookup in a `WeakMap` modelled as an association list on object
identities (`undefined` on a missing key becomes `none`). -/
def cacheGet {β : Type} : List (Obj × β) → Obj → Option β
  | [], _ => none
  | (k, v) :: rest, o => if k = o then some v else cacheGet rest o

/-- `WeakMap.set`: replace the entry for the key, or append a new one. -/
def cacheSet {β : Type} : List (Obj × β) → Obj → β → List (Obj × β)
  | [], o, v => [(o, v)]
  | (k, w) :: rest, o, v =>
    if k = o then (o, v) :: rest else (k, w) :: cacheSet rest o v

/-- `WeakMap.delete`: remove the entry for the key. -/
def cacheDelete {β : Type} : List (Obj × β) → Obj → List (Obj × β)
  | [], _ => []
  | (k, w) :: rest, o =>
    if k = o then cacheDelete rest o else (k, w) :: cacheDelete rest o

/-- `Set.add` on a set of checker identities, modelled as an
insertion-ordered duplicate-free list. -/
def addToSet (s : List Nat) (x : Nat) : List Nat :=
  if x ∈ s then s else s ++ [x]

/-- A `TypeChecker` as constructed by `new TypeChecker(...)`, restricted to
the fields the verified claims touch.  `tcId` is the object identity of the
checker (used as an element of the weak listener sets); `_check` is the
validation function, `null` (`none`) for an unchecked checker. -/
structure TypeChecker where
  tcId : Nat
  _check : Option CheckFunction
  _fromSnapshotProcessor : JSVal → JSVal
  _toSnapshotProcessor : JSVal → JSVal

/-- The `unchecked` flag, set by the constructor to `!_check`. -/
def TypeChecker.unchecked (tc : TypeChecker) : Bool :=
  tc._check.isNone

/-- The mutable state of the type-checking module, threaded explicitly:
each checker's private `checkResultCache` and `_toSnapshotProcessorCache`
(indexed by `tcId`), and the two module-level weak listener registries. -/
structure TCState where
  checkResultCache : Nat → List (Obj × CheckResult)
  typeCheckersWithCachedResultsOfObject : Obj → List Nat
  toSnapshotProcessorCache : Nat → List (Obj × JSVal)
  typeCheckersWithCachedSnapshotProcessorResultsOfObject : Obj → List Nat

/-- `setCachedResult(obj, newCacheValue)`: store the result in this
checker's cache (created lazily in the source; an absent cache and an empty
one are observably equal) and register this checker as a listener of that
object's changes. -/
def setCachedResult (tc : TypeChecker) (st : TCState) (obj : Obj)
    (newCacheValue : CheckResult) : TCState :=
  { st with
    checkResultCache := fun c =>
      if c = tc.tcId then cacheSet (st.checkResultCache tc.tcId) obj newCacheValue
      else st.checkResultCache c
    typeCheckersWithCachedResultsOfObject := fun o =>
      if o = obj then addToSet (st.typeCheckersWithCachedResultsOfObject obj) tc.tcId
      else st.typeCheckersWithCachedResultsOfObject o }

/-- `invalidateCachedResult(obj)`: drop this checker's cached entry for the
object. -/
def invalidateCachedResult (tc : TypeChecker) (st : TCState) (obj : Obj) : TCState :=
  { st with
    checkResultCache := fun c =>
      if c = tc.tcId then cacheDelete (st.checkResultCache tc.tcId) obj
      else st.checkResultCache c }

/-- The rewriting applied to a cached result before returning it from
`check`: a cached error is rebuilt with the call's path prefixed onto the
cached (base-relative) path; a cached `null` stays `null`. -/
def rewriteCachedResult (cachedResult : CheckResult) (path : TCPath) : CheckResult :=
  match cachedResult with
  | some err =>
    some { path := path ++ err.path
           expectedTypeName := err.expectedTypeName
           actualValue := err.actualValue }
  | none => none

/-- `TypeChecker.check(value, path)`.  `isTweakedObject` stands for the
tweaker-core predicate (external to this module).  The third component of
the result counts the invocations of the underlying validator `_check`
performed by this call. -/
def TypeChecker.check (tc : TypeChecker) (isTweakedObject : Obj → Bool)
    (st : TCState) (value : JSVal) (path : TCPath) :
    CheckResult × TCState × Nat :=
  match tc._check with
  | none => (none, st, 0)  -- this.unchecked
  | some ck =>
    match value with
    | .prim _ => (ck value path, st, 1)  -- not a tweaked object
    | .obj o =>
      if isTweakedObject o then
        -- optimized checking with cached values
        match cacheGet (st.checkResultCache tc.tcId) o with
        | some cachedResult => (rewriteCachedResult cachedResult path, st, 0)
        | none =>
          -- the path is set empty since the result could be used for
          -- paths other than this base
          let cachedResult := ck value emptyPath
          (rewriteCachedResult cachedResult path,
           setCachedResult tc st o cachedResult, 1)
      else (ck value path, st, 1)

/-- One iteration of the `while` loop of
`invalidateCachedTypeCheckerResult`: every checker in the listener set of
the object drops its cached entry for it, and the listener set itself is
deleted. -/
def invalidateCachedTypeCheckerResultStep (st : TCState) (obj : Obj) : TCState :=
  let s := st.typeCheckersWithCachedResultsOfObject obj
  { st with
    checkResultCache := fun c =>
      if c ∈ s then cacheDelete (st.checkResultCache c) obj
      else st.checkResultCache c
    typeCheckersWithCachedResultsOfObject := fun o =>
      if o = obj then [] else st.typeCheckersWithCachedResultsOfObject o }

/-- `invalidateCachedTypeCheckerResult(obj)`: invalidate for the object and
all its parents, walking `fastGetParentIncludingDataObjects` (modelled by
`parentOf`) up to the root.  The source's `while (current)` loop terminates
because parent chains are finite; `fuel` bounds the walk and any bound at
least the chain length is exact. -/
def invalidateCachedTypeCheckerResult (parentOf : Obj → Option Obj) :
    Nat → TCState → Obj → TCState
  | 0, st, _ => st
  | fuel + 1, st, obj =>
    let st2 := invalidateCachedTypeCheckerResultStep st obj
    match parentOf obj with
    | none => st2
    | some p => invalidateCachedTypeCheckerResult parentOf fuel st2 p

/-- The objects visited by the invalidation walk: the object itself and its
ancestors, up to the root or to the fuel bound. -/
def objectAndAncestors (parentOf : Obj → Option Obj) : Nat → Obj → List Obj
  | 0, _ => []
  | fuel + 1, obj =>
    obj :: (match parentOf obj with
      | none => []
      | some p => objectAndAncestors parentOf fuel p)

/-- `TypeChecker.fromSnapshotProcessor(sn)`: it cannot cache, since nobody
ensures the original snapshot will not be tweaked after use — every call
just runs the underlying processor.  The third component counts processor
invocations. -/
def TypeChecker.fromSnapshotProcessor (tc : TypeChecker) (st : TCState)
    (sn : JSVal) : JSVal × TCState × Nat :=
  (tc._fromSnapshotProcessor sn, st, 1)

/-- `TypeChecker.invalidateSnapshotProcessorCachedResult(obj)`. -/
def TypeChecker.invalidateSnapshotProcessorCachedResult (tc : TypeChecker)
    (st : TCState) (obj : Obj) : TCState :=
  { st with
    toSnapshotProcessorCache := fun c =>
      if c = tc.tcId then cacheDelete (st.toSnapshotProcessorCache tc.tcId) obj
      else st.toSnapshotProcessorCache c }

/-- `TypeChecker.toSnapshotProcessor(sn)`: non-object inputs (including
`null`) are not cacheable and the processor just runs; for object inputs a
cached output is returned as-is, and otherwise the processor runs once, the
output is cached keyed on the input, and the checker registers itself as a
listener for that object's invalidation.  The third component counts
processor invocations. -/
def TypeChecker.toSnapshotProcessor (tc : TypeChecker) (st : TCState)
    (sn : JSVal) : JSVal × TCState × Nat :=
  match sn with
  | .prim _ => (tc._toSnapshotProcessor sn, st, 1)  -- not cacheable
  | .obj o =>
    match cacheGet (st.toSnapshotProcessorCache tc.tcId) o with
    | some val => (val, st, 0)
    | none =>
      let val := tc._toSnapshotProcessor sn
      (val,
       { st with
         toSnapshotProcessorCache := fun c =>
           if c = tc.tcId then cacheSet (st.toSnapshotProcessorCache tc.tcId) o val
           else st.toSnapshotProcessorCache c
         typeCheckersWithCachedSnapshotProcessorResultsOfObject := fun x =>
           if x = o then
             addToSet (st.typeCheckersWithCachedSnapshotProcessorResultsOfObject o) tc.tcId
           else st.typeCheckersWithCachedSnapshotProcessorResultsOfObject x },
       1)

/-- `invalidateCachedToSnapshotProcessorResult(obj)`: every checker in the
snapshot-processor listener set of the object drops its cached processor
output for it, and the listener set is deleted. -/
def invalidateCachedToSnapshotProcessorResult (st : TCState) (obj : Obj) : TCState :=
  let s := st.typeCheckersWithCachedSnapshotProcessorResultsOfObject obj
  { st with
    toSnapshotProcessorCache := fun c =>
      if c ∈ s then cacheDelete (st.toSnapshotProcessorCache c) obj
      else st.toSnapshotProcessorCache c
    typeCheckersWithCachedSnapshotProcessorResultsOfObject := fun o =>
      if o = obj then [] else st.typeCheckersWithCachedSnapshotProcessorResultsOfObject o }

/-! ## Claims about the model-property builder -/

/-- C10: `getModelPropDefaultValue` invokes and returns the default function
when one is set; otherwise it returns the default value when one is set;
otherwise it returns the `noDefaultValue` sentinel (here `none`) — so a
function default always takes precedence over a plain default, and a
property created by `prop()` with no argument yields the sentinel. -/
theorem getModelPropDefaultValue_spec {α σ : Type} (p : PropInternal α σ) :
    (∀ f : Unit → α, p.defaultFn = some f →
      getModelPropDefaultValue p = some (f ())) ∧
    (p.defaultFn = none → ∀ v : α, p.defaultValue = some v →
      getModelPropDefaultValue p = some v) ∧
    (p.defaultFn = none → p.defaultValue = none →
      getModelPropDefaultValue p = none) ∧
    getModelPropDefaultValue (propRecord (α := α) (σ := σ) none) = none := by
  refine ⟨?_, ?_, ?_, rfl⟩
  · intro f hf
    simp [getModelPropDefaultValue, hf]
  · intro h v hv
    simp [getModelPropDefaultValue, h, hv]
  · intro h1 h2
    simp [getModelPropDefaultValue, h1, h2]

/-- Witness for C10 at a concrete property: a function default of `7` beats a
plain default of `3`. -/
theorem getModelPropDefaultValue_spec_witness :
    getModelPropDefaultValue
      { defaultFn := some (fun _ => (7 : Nat))
        defaultValue := some 3
        typeChecker := none
        setter := .off
        isId := false
        transform := none
        fromSnapshotProcessor := none
        toSnapshotProcessor := (none : Option (Nat → Nat)) } = some 7 :=
  (getModelPropDefaultValue_spec _).1 _ rfl

/-- C9: the builder methods `withSetter`, `withTransform` and
`withSnapshotProcessor` are non-mutating: each allocates a fresh property
object (its identity differs from the receiver's) and the receiver's
`_internal` record on the heap — all of its fields — is left unchanged, so
the original property can still be used independently afterwards. -/
theorem prop_builder_methods_nonmutating {α σ : Type} (heap : PropHeap α σ)
    (self : Nat) (h : self < heap.length) (mode : Option SetterMode) (t : Nat)
    (fs ts : Option (σ → σ)) :
    ((withSetter heap self mode).1[self]? = heap[self]? ∧
      (withSetter heap self mode).2 ≠ self) ∧
    ((withTransform heap self t).1[self]? = heap[self]? ∧
      (withTransform heap self t).2 ≠ self) ∧
    ((withSnapshotProcessor heap self fs ts).1[self]? = heap[self]? ∧
      (withSnapshotProcessor heap self fs ts).2 ≠ self) := by
  have hget := List.getElem?_eq_getElem h
  have hne : heap.length ≠ self := Nat.ne_of_gt h
  have happ : ∀ r : PropInternal α σ, (heap ++ [r])[self]? = heap[self]? :=
    fun _ => List.getElem?_append_left h
  refine ⟨⟨?_, ?_⟩, ⟨?_, ?_⟩, ⟨?_, ?_⟩⟩ <;>
    simp [withSetter, withTransform, withSnapshotProcessor, allocProp, hget,
      happ, hne]

/-- Witness for C9 at a concrete one-element heap. -/
theorem prop_builder_methods_nonmutating_witness :
    ((withSetter (propNew ([] : PropHeap Nat Nat) none).1 0 none).1[0]? =
        (propNew ([] : PropHeap Nat Nat) none).1[0]? ∧
      (withSetter (propNew ([] : PropHeap Nat Nat) none).1 0 none).2 ≠ 0) ∧
    ((withTransform (propNew ([] : PropHeap Nat Nat) none).1 0 4).1[0]? =
        (propNew ([] : PropHeap Nat Nat) none).1[0]? ∧
      (withTransform (propNew ([] : PropHeap Nat Nat) none).1 0 4).2 ≠ 0) ∧
    ((withSnapshotProcessor (propNew ([] : PropHeap Nat Nat) none).1 0 none none).1[0]? =
        (propNew ([] : PropHeap Nat Nat) none).1[0]? ∧
      (withSnapshotProcessor (propNew ([] : PropHeap Nat Nat) none).1 0 none none).2 ≠ 0) :=
  prop_builder_methods_nonmutating _ 0 (by decide) none 4 none none

/-- C2 counterexample: chaining `withSnapshotProcessor` with `fromSnapshot = f`
first and `fromSnapshot = g` second applies `f` after `g`, not before: with
`f = fun sn => sn + 1` and `g = fun sn => 2 * sn` the combined pipeline maps
`5` to `f (g 5) = 11`, not to `g (f 5) = 12` as the claim states. -/
theorem withSnapshotProcessor_compose_counterexample :
    applyFromSnapshotProcessor
        (withSnapshotProcessorRecord
          (withSnapshotProcessorRecord (propRecord (α := Nat) (σ := Nat) none)
            (some (fun sn => sn + 1)) none)
          (some (fun sn => 2 * sn)) none) 5 ≠
      (fun sn => 2 * sn) ((fun sn => sn + 1) 5) := by
  decide

/-- C2 amended: applying `withSnapshotProcessor` first with `f` and then with
`g` yields a combined `fromSnapshot` pipeline equal to `f (g sn)` — the
last-added (outermost) processor runs first on the way in — and a combined
`toSnapshot` pipeline equal to `g (f sn)`, the mirror order on the way out,
so nested processors behave as a single combined transform. -/
theorem withSnapshotProcessor_compose {α σ : Type} (arg : Option (PropDefArg α))
    (ffrom gfrom fto gto : σ → σ) (sn sn2 : σ) :
    applyFromSnapshotProcessor
        (withSnapshotProcessorRecord
          (withSnapshotProcessorRecord (propRecord (α := α) arg)
            (some ffrom) (some fto))
          (some gfrom) (some gto)) sn = ffrom (gfrom sn) ∧
    applyToSnapshotProcessor
        (withSnapshotProcessorRecord
          (withSnapshotProcessorRecord (propRecord (α := α) arg)
            (some ffrom) (some fto))
          (some gfrom) (some gto)) sn2 = gto (fto sn2) :=
  ⟨rfl, rfl⟩

/-! ## Claims about reconciliation -/

/-- When every registered reconciler declines a pair, the registry loop
yields nothing. -/
theorem runReconcilers_eq_none (rs : List Reconciler) (value sn : RValue)
    (pool : ModelPool) (parent : RValue)
    (h : ∀ r ∈ rs, r value sn pool parent = none) :
    runReconcilers rs value sn pool parent = none := by
  induction rs with
  | nil => rfl
  | cons r rest ih =>
    have hr : r value sn pool parent = none := h r (List.mem_cons_self r rest)
    simp only [runReconcilers, hr]
    exact ih fun r2 hr2 => h r2 (List.mem_cons_of_mem r hr2)

/-- C1: when the target snapshot is reference-identical to the current
snapshot of the value, `reconcileSnapshot` returns the value itself, for
every reconciler registry, pool and parent — so no registered reconciler's
output is used and nothing is allocated.  The hypothesis on `getSnapshot`
states the snapshot contract for primitives: only a primitive has a
primitive snapshot, namely itself. -/
theorem reconcileSnapshot_identity_short_circuit (getSnapshot : RValue → RValue)
    (reconcilers : List Reconciler) (value sn : RValue) (pool : ModelPool)
    (parent : RValue)
    (hprim : ∀ v, isPrimitive (getSnapshot v) = true → getSnapshot v = v)
    (hsn : getSnapshot value = sn) :
    reconcileSnapshot getSnapshot reconcilers value sn pool parent =
      Except.ok value := by
  unfold reconcileSnapshot
  by_cases hp : isPrimitive sn = true
  · have hv : getSnapshot value = value := hprim value (hsn ▸ hp)
    have hsv : sn = value := by rw [← hsn, hv]
    subst hsv
    simp [hp]
  · simp [hp, hsn]

/-- Witness for C1: reconciling a node against its own snapshot (with the
identity snapshot map) returns the node. -/
theorem reconcileSnapshot_identity_short_circuit_witness :
    reconcileSnapshot (fun v => v) [] (.ref 0 .plainObj) (.ref 0 .plainObj)
      (fun _ _ => none) (.prim .null) = Except.ok (.ref 0 .plainObj) :=
  reconcileSnapshot_identity_short_circuit (fun v => v) [] _ _ _ _
    (fun _ _ => rfl) rfl

/-- C5: a non-primitive snapshot that no registered reconciler claims and
that is not the value's own current snapshot makes `reconcileSnapshot` throw
synchronously: "a snapshot must not contain maps" for a `Map`, "a snapshot
must not contain sets" for a `Set`, and "unsupported snapshot" otherwise —
it never returns a value in these cases. -/
theorem reconcileSnapshot_unsupported_fails (getSnapshot : RValue → RValue)
    (reconcilers : List Reconciler) (value sn : RValue) (pool : ModelPool)
    (parent : RValue)
    (hnp : isPrimitive sn = false)
    (hne : getSnapshot value ≠ sn)
    (hunclaimed : ∀ r ∈ reconcilers, r value sn pool parent = none) :
    reconcileSnapshot getSnapshot reconcilers value sn pool parent =
      Except.error
        (if isMap sn then "a snapshot must not contain maps"
         else if isSet sn then "a snapshot must not contain sets"
         else "unsupported snapshot - " ++ rvalueStr sn) := by
  unfold reconcileSnapshot
  rw [runReconcilers_eq_none reconcilers value sn pool parent hunclaimed]
  simp only [hnp, hne]
  by_cases hm : isMap sn = true <;> by_cases hs : isSet sn = true <;>
    simp [hm, hs, hne]

/-- Witness for C5: a `Map` snapshot claimed by no reconciler throws the
map-specific failure. -/
theorem reconcileSnapshot_unsupported_fails_witness :
    reconcileSnapshot (fun v => v) [] (.prim .null) (.ref 0 .mapObj)
      (fun _ _ => none) (.prim .null) =
      Except.error "a snapshot must not contain maps" := by
  have h := reconcileSnapshot_unsupported_fails (fun v => v) [] (.prim .null)
    (.ref 0 .mapObj) (fun _ _ => none) (.prim .null) (by decide) (by decide)
    (fun r hr => absurd hr (List.not_mem_nil r))
  simpa using h

/-- C6: `detachIfNeeded` does nothing when the new value is
reference-identical to the old one; and when the new value is a model node
found in the pool under its type and id and it currently has a parent, the
old parent location is set to `null` — the detach is applied to the old
location, keeping a single parent at a time. -/
theorem detachIfNeeded_spec (findParentPath : RValue → Option ParentPath)
    (pool : ModelPool) (store : Store) (newValue oldValue : RValue) :
    (newValue = oldValue →
      runDetachIfNeeded findParentPath pool store newValue oldValue = store) ∧
    (∀ (oid : Nat) (mt mi : String) (w : RValue) (pp : ParentPath),
      newValue = .ref oid (.modelObj mt mi) →
      pool mt mi = some w →
      findParentPath newValue = some pp →
      newValue ≠ oldValue →
      detachIfNeeded findParentPath pool newValue oldValue = some pp ∧
      runDetachIfNeeded findParentPath pool store newValue oldValue
          pp.parentId pp.path = some (.prim .null)) := by
  constructor
  · intro heq
    simp [runDetachIfNeeded, detachIfNeeded, heq]
  · intro oid mt mi w pp hnv hpool hpp hne
    subst hnv
    have hd : detachIfNeeded findParentPath pool (.ref oid (.modelObj mt mi))
        oldValue = some pp := by
      simp [detachIfNeeded, hne, hpool, hpp]
    refine ⟨hd, ?_⟩
    simp [runDetachIfNeeded, hd, setStoreKey]

/-- Witness for C6: a pooled model node with a parent is detached by nulling
its old slot. -/
theorem detachIfNeeded_spec_witness :
    detachIfNeeded (fun _ => some ⟨3, "k"⟩) (fun _ _ => some (.ref 9 .plainObj))
        (.ref 1 (.modelObj "M" "id1")) (.prim .null) = some ⟨3, "k"⟩ ∧
    runDetachIfNeeded (fun _ => some ⟨3, "k"⟩) (fun _ _ => some (.ref 9 .plainObj))
        (fun _ _ => none) (.ref 1 (.modelObj "M" "id1")) (.prim .null) 3 "k" =
      some (.prim .null) :=
  (detachIfNeeded_spec (fun _ => some ⟨3, "k"⟩) (fun _ _ => some (.ref 9 .plainObj))
      (fun _ _ => none) (.ref 1 (.modelObj "M" "id1")) (.prim .null)).2
    1 "M" "id1" (.ref 9 .plainObj) ⟨3, "k"⟩ rfl rfl rfl (by decide)

/-! ## Claims about the type checker -/

/-- Looking up the key just stored in a weak map finds the stored value. -/
theorem cacheGet_cacheSet_self {β : Type} (l : List (Obj × β)) (o : Obj) (v : β) :
    cacheGet (cacheSet l o v) o = some v := by
  induction l with
  | nil => simp [cacheSet, cacheGet]
  | cons kv rest ih =>
    obtain ⟨k, w⟩ := kv
    by_cases hk : k = o
    · simp [cacheSet, cacheGet, hk]
    · simp [cacheSet, cacheGet, hk, ih]

/-- Deleting a key from a weak map removes exactly that key. -/
theorem cacheGet_cacheDelete {β : Type} (l : List (Obj × β)) (o x : Obj) :
    cacheGet (cacheDelete l o) x = if x = o then none else cacheGet l x := by
  induction l with
  | nil => simp [cacheDelete, cacheGet]
  | cons kv rest ih =>
    obtain ⟨k, w⟩ := kv
    by_cases hk : k = o
    · subst hk
      rcases eq_or_ne x k with hx | hx
      · subst hx
        simp [cacheDelete, cacheGet, ih]
      · simp [cacheDelete, cacheGet, hx, Ne.symm hx, ih]
    · by_cases hkx : k = x
      · subst hkx
        simp [cacheDelete, cacheGet, hk, Ne.symm hk]
      · simp [cacheDelete, cacheGet, hk, hkx, ih]

/-- An element just added to a listener set is a member of it. -/
theorem mem_addToSet_self (s : List Nat) (x : Nat) : x ∈ addToSet s x := by
  by_cases h : x ∈ s <;> simp [addToSet, h]

/-- C8: a TypeChecker constructed with a null validation function (an
unchecked checker) passes every value at every path: `check` returns `null`,
touching no state and running no validation. -/
theorem unchecked_check_returns_null (tc : TypeChecker)
    (h : tc.unchecked = true) (isTw : Obj → Bool) (st : TCState)
    (value : JSVal) (path : TCPath) :
    tc.check isTw st value path = (none, st, 0) := by
  have hc : tc._check = none := Option.isNone_iff_eq_none.mp h
  simp [TypeChecker.check, hc]

/-- Witness for C8 at a concrete unchecked checker, object value and
non-empty path. -/
theorem unchecked_check_returns_null_witness :
    TypeChecker.check ⟨0, none, fun sn => sn, fun sn => sn⟩ (fun _ => true)
        ⟨fun _ => [], fun _ => [], fun _ => [], fun _ => []⟩ (.obj 3) [1, 2] =
      (none, ⟨fun _ => [], fun _ => [], fun _ => [], fun _ => []⟩, 0) :=
  unchecked_check_returns_null ⟨0, none, fun sn => sn, fun sn => sn⟩ rfl
    (fun _ => true) ⟨fun _ => [], fun _ => [], fun _ => [], fun _ => []⟩
    (.obj 3) [1, 2]

/-- C3: for a checked TypeChecker applied to a tweaked node, `check` uses
the per-(checker, node) cache: a cache hit returns the cached `null` as
`null`, or the cached error with the call's path prefixed onto the cached
path (same expected type name and actual value), leaving the state untouched
and running no validation; a cache miss runs the validator exactly once with
the empty path and stores the result; hence after any call the node is
cached and a further call runs no validation. -/
theorem check_cached_result_spec (tc : TypeChecker) (ck : CheckFunction)
    (isTw : Obj → Bool) (st : TCState) (o : Obj) (path : TCPath)
    (hck : tc._check = some ck) (htw : isTw o = true) :
    (∀ cachedResult, cacheGet (st.checkResultCache tc.tcId) o = some cachedResult →
      tc.check isTw st (.obj o) path =
        (rewriteCachedResult cachedResult path, st, 0)) ∧
    (cacheGet (st.checkResultCache tc.tcId) o = none →
      tc.check isTw st (.obj o) path =
        (rewriteCachedResult (ck (.obj o) emptyPath) path,
         setCachedResult tc st o (ck (.obj o) emptyPath), 1)) ∧
    (∀ path2 : TCPath,
      (tc.check isTw (tc.check isTw st (.obj o) path).2.1 (.obj o) path2).2.2 = 0) ∧
    (∀ (err : TypeCheckError) (p2 : TCPath),
      rewriteCachedResult (some err) p2 =
        some ⟨p2 ++ err.path, err.expectedTypeName, err.actualValue⟩) ∧
    rewriteCachedResult none path = none := by
  refine ⟨?_, ?_, ?_, fun err p2 => rfl, rfl⟩
  · intro c hc
    simp [TypeChecker.check, hck, htw, hc]
  · intro hc
    simp [TypeChecker.check, hck, htw, hc]
  · intro path2
    rcases hcc : cacheGet (st.checkResultCache tc.tcId) o with _ | c
    · simp [TypeChecker.check, hck, htw, hcc, setCachedResult,
        cacheGet_cacheSet_self]
    · simp [TypeChecker.check, hck, htw, hcc]

/-- Witness for C3: a first call on an empty cache runs the validator once
with the empty path and stores the result. -/
theorem check_cached_result_spec_witness :
    TypeChecker.check ⟨0, some (fun _ _ => none), fun sn => sn, fun sn => sn⟩
        (fun _ => true) ⟨fun _ => [], fun _ => [], fun _ => [], fun _ => []⟩
        (.obj 2) [5] =
      (rewriteCachedResult ((fun _ _ => none : CheckFunction) (.obj 2) emptyPath) [5],
       setCachedResult ⟨0, some (fun _ _ => none), fun sn => sn, fun sn => sn⟩
         ⟨fun _ => [], fun _ => [], fun _ => [], fun _ => []⟩ 2
         ((fun _ _ => none : CheckFunction) (.obj 2) emptyPath), 1) :=
  (check_cached_result_spec _ (fun _ _ => none) _ _ 2 [5] rfl rfl).2.1 rfl

/-- C7: `fromSnapshotProcessor` never caches — every call runs the
underlying processor once and leaves the state untouched — while
`toSnapshotProcessor` caches its output keyed on object inputs: a non-object
input always runs the processor and caches nothing; an uncached object input
runs the processor once, a second call with the same object returns the
cached output without running it, the checker subscribes to the object in
the snapshot-processor listener registry, and invalidation for that object
deletes the cached entry. -/
theorem snapshotProcessor_caching_spec (tc : TypeChecker) (st : TCState)
    (o : Obj)
    (hmiss : cacheGet (st.toSnapshotProcessorCache tc.tcId) o = none) :
    (∀ (st0 : TCState) (sn : JSVal),
      tc.fromSnapshotProcessor st0 sn = (tc._fromSnapshotProcessor sn, st0, 1)) ∧
    (∀ (st0 : TCState) (p : JSPrim),
      tc.toSnapshotProcessor st0 (.prim p) =
        (tc._toSnapshotProcessor (.prim p), st0, 1)) ∧
    (tc.toSnapshotProcessor st (.obj o)).1 = tc._toSnapshotProcessor (.obj o) ∧
    (tc.toSnapshotProcessor st (.obj o)).2.2 = 1 ∧
    tc.toSnapshotProcessor (tc.toSnapshotProcessor st (.obj o)).2.1 (.obj o) =
      (tc._toSnapshotProcessor (.obj o),
       (tc.toSnapshotProcessor st (.obj o)).2.1, 0) ∧
    tc.tcId ∈
      ((tc.toSnapshotProcessor st (.obj o)).2.1).typeCheckersWithCachedSnapshotProcessorResultsOfObject o ∧
    cacheGet
      ((invalidateCachedToSnapshotProcessorResult
          (tc.toSnapshotProcessor st (.obj o)).2.1 o).toSnapshotProcessorCache
        tc.tcId) o = none := by
  refine ⟨fun st0 sn => rfl, fun st0 p => rfl, ?_, ?_, ?_, ?_, ?_⟩
  · simp [TypeChecker.toSnapshotProcessor, hmiss]
  · simp [TypeChecker.toSnapshotProcessor, hmiss]
  · simp [TypeChecker.toSnapshotProcessor, hmiss, cacheGet_cacheSet_self]
  · simp [TypeChecker.toSnapshotProcessor, hmiss, mem_addToSet_self]
  · simp [TypeChecker.toSnapshotProcessor, hmiss,
      invalidateCachedToSnapshotProcessorResult, mem_addToSet_self,
      cacheGet_cacheDelete]

/-- Witness for C7: a concrete checker on an empty state caches the output
for object `4` and re-running, registration and invalidation behave as
stated. -/
theorem snapshotProcessor_caching_spec_witness :
    (TypeChecker.toSnapshotProcessor ⟨1, none, fun sn => sn, fun _ => .prim .null⟩
        ⟨fun _ => [], fun _ => [], fun _ => [], fun _ => []⟩ (.obj 4)).1 =
      JSVal.prim .null :=
  (snapshotProcessor_caching_spec ⟨1, none, fun sn => sn, fun _ => .prim .null⟩
    ⟨fun _ => [], fun _ => [], fun _ => [], fun _ => []⟩ 4 rfl).2.2.1

/-- One invalidation step empties the listener set of the object it
processes. -/
theorem invalidateStep_listeners_self (st : TCState) (obj : Obj) :
    (invalidateCachedTypeCheckerResultStep st obj).typeCheckersWithCachedResultsOfObject obj = [] := by
  simp [invalidateCachedTypeCheckerResultStep]

/-- One invalidation step leaves the listener sets of other objects alone. -/
theorem invalidateStep_listeners_ne (st : TCState) (obj x : Obj) (h : x ≠ obj) :
    (invalidateCachedTypeCheckerResultStep st obj).typeCheckersWithCachedResultsOfObject x =
      st.typeCheckersWithCachedResultsOfObject x := by
  simp [invalidateCachedTypeCheckerResultStep, h]

/-- One invalidation step leaves cache entries keyed on other objects
alone. -/
theorem invalidateStep_cache_ne (st : TCState) (obj x : Obj) (c : Nat)
    (h : x ≠ obj) :
    cacheGet ((invalidateCachedTypeCheckerResultStep st obj).checkResultCache c) x =
      cacheGet (st.checkResultCache c) x := by
  by_cases hc : c ∈ st.typeCheckersWithCachedResultsOfObject obj <;>
    simp [invalidateCachedTypeCheckerResultStep, hc, cacheGet_cacheDelete, h]

/-- One invalidation step deletes the processed object's entry from the
cache of every checker listening to it. -/
theorem invalidateStep_cache_self (st : TCState) (obj : Obj) (c : Nat)
    (hc : c ∈ st.typeCheckersWithCachedResultsOfObject obj) :
    cacheGet ((invalidateCachedTypeCheckerResultStep st obj).checkResultCache c) obj = none := by
  simp [invalidateCachedTypeCheckerResultStep, hc, cacheGet_cacheDelete]

/-- The invalidation walk never adds listeners: an empty listener set stays
empty. -/
theorem invalidate_listeners_empty_preserved (parentOf : Obj → Option Obj)
    (fuel : Nat) (st : TCState) (obj a : Obj)
    (h : st.typeCheckersWithCachedResultsOfObject a = []) :
    (invalidateCachedTypeCheckerResult parentOf fuel st obj).typeCheckersWithCachedResultsOfObject a = [] := by
  induction fuel generalizing st obj with
  | zero => exact h
  | succ n ih =>
    have hstep : (invalidateCachedTypeCheckerResultStep st obj).typeCheckersWithCachedResultsOfObject a = [] := by
      by_cases hao : a = obj
      · subst hao
        exact invalidateStep_listeners_self st a
      · rw [invalidateStep_listeners_ne st obj a hao]
        exact h
    unfold invalidateCachedTypeCheckerResult
    cases hp : parentOf obj with
    | none => exact hstep
    | some p => exact ih _ _ hstep

/-- The invalidation walk never adds cache entries: an absent entry stays
absent. -/
theorem invalidate_cache_none_preserved (parentOf : Obj → Option Obj)
    (fuel : Nat) (st : TCState) (obj a : Obj) (c : Nat)
    (h : cacheGet (st.checkResultCache c) a = none) :
    cacheGet ((invalidateCachedTypeCheckerResult parentOf fuel st obj).checkResultCache c) a = none := by
  induction fuel generalizing st obj with
  | zero => exact h
  | succ n ih =>
    have hstep : cacheGet ((invalidateCachedTypeCheckerResultStep st obj).checkResultCache c) a = none := by
      by_cases hao : a = obj
      · subst hao
        by_cases hc : c ∈ st.typeCheckersWithCachedResultsOfObject a <;>
          simp [invalidateCachedTypeCheckerResultStep, hc, cacheGet_cacheDelete, h]
      · rw [invalidateStep_cache_ne st obj a c hao]
        exact h
    unfold invalidateCachedTypeCheckerResult
    cases hp : parentOf obj with
    | none => exact hstep
    | some p => exact ih _ _ hstep

/-- C4: invalidating cached type-check results for an object clears the
listener registry entry of the object and of every ancestor up to the root,
and for each visited object every TypeChecker registered as having cached a
result for it — not just one — loses its cached entry for that object. -/
theorem invalidateCachedTypeCheckerResult_spec (parentOf : Obj → Option Obj)
    (fuel : Nat) (st : TCState) (obj a : Obj)
    (ha : a ∈ objectAndAncestors parentOf fuel obj) :
    (invalidateCachedTypeCheckerResult parentOf fuel st obj).typeCheckersWithCachedResultsOfObject a = [] ∧
    ∀ c ∈ st.typeCheckersWithCachedResultsOfObject a,
      cacheGet ((invalidateCachedTypeCheckerResult parentOf fuel st obj).checkResultCache c) a = none := by
  induction fuel generalizing st obj with
  | zero => simp [objectAndAncestors] at ha
  | succ n ih =>
    by_cases hao : a = obj
    · subst hao
      unfold invalidateCachedTypeCheckerResult
      cases hp : parentOf a with
      | none =>
        exact ⟨invalidateStep_listeners_self st a,
          fun c hc => invalidateStep_cache_self st a c hc⟩
      | some p =>
        constructor
        · exact invalidate_listeners_empty_preserved parentOf n _ p a
            (invalidateStep_listeners_self st a)
        · intro c hc
          exact invalidate_cache_none_preserved parentOf n _ p a c
            (invalidateStep_cache_self st a c hc)
    · have hmem : ∃ p, parentOf obj = some p ∧ a ∈ objectAndAncestors parentOf n p := by
        simp only [objectAndAncestors, List.mem_cons] at ha
        rcases ha with h1 | h2
        · exact absurd h1 hao
        · cases hp : parentOf obj with
          | none =>
            rw [hp] at h2
            simp at h2
          | some p =>
            rw [hp] at h2
            exact ⟨p, rfl, h2⟩
      obtain ⟨p, hp, hap⟩ := hmem
      unfold invalidateCachedTypeCheckerResult
      rw [hp]
      have hrec := ih (invalidateCachedTypeCheckerResultStep st obj) p hap
      refine ⟨hrec.1, fun c hc => ?_⟩
      apply hrec.2
      rw [invalidateStep_listeners_ne st obj a hao]
      exact hc

/-- Witness for C4: in a two-node parent chain `1 → 0`, invalidating node
`1` also clears node `0`'s registry entry and the cached result its listener
(checker `5`) held for it. -/
theorem invalidateCachedTypeCheckerResult_spec_witness :
    (invalidateCachedTypeCheckerResult (fun o => if o = 1 then some 0 else none) 2
        ⟨fun c => if c = 5 then [(0, none)] else [(1, none)],
         fun o => if o = 0 then [5] else if o = 1 then [7] else [],
         fun _ => [], fun _ => []⟩ 1).typeCheckersWithCachedResultsOfObject 0 = [] ∧
    cacheGet
      ((invalidateCachedTypeCheckerResult (fun o => if o = 1 then some 0 else none) 2
          ⟨fun c => if c = 5 then [(0, none)] else [(1, none)],
           fun o => if o = 0 then [5] else if o = 1 then [7] else [],
           fun _ => [], fun _ => []⟩ 1).checkResultCache 5) 0 = none :=
  ⟨(invalidateCachedTypeCheckerResult_spec (fun o => if o = 1 then some 0 else none) 2
      ⟨fun c => if c = 5 then [(0, none)] else [(1, none)],
       fun o => if o = 0 then [5] else if o = 1 then [7] else [],
       fun _ => [], fun _ => []⟩ 1 0 (by decide)).1,
   (invalidateCachedTypeCheckerResult_spec (fun o => if o = 1 then some 0 else none) 2
      ⟨fun c => if c = 5 then [(0, none)] else [(1, none)],
       fun o => if o = 0 then [5] else if o = 1 then [7] else [],
       fun _ => [], fun _ => []⟩ 1 0 (by decide)).2 5 (by decide)⟩
